import Mathlib

/-!
  # Checkout engine of `src/src/components/Sell.tsx`

  A shallow embedding of the point-of-sale cart and checkout reconciliation
  logic of the `Sell` component: cart mutation (`addToCart`,
  `updateQuantity`, `updatePrice`, `handlePriceBlur`, `removeFromCart`),
  the derived totals (`subtotal`, `discountAmount`, `total`), the tender
  ledger (`paymentSplits`, `updatePaymentSplit`, `payAll`, `clearPayments`,
  `isPaymentComplete`, `isOverpaid`), and the submission path
  (`handleCompleteSale`: its guards, the assembled RPC payload, and the
  state reset on success).

  Modelling conventions:
  * JavaScript numbers are modelled as `ℚ` (the arithmetic the claims are
    about is exact at these magnitudes), quantities and stock as `ℤ`.
  * A cart line's `price` field is `number | string` in the source, where
    the only reachable string value is the empty string stored by
    `updatePrice` as an editing sentinel; it is modelled as `Option ℚ`
    with `none` for the empty-string sentinel.  `parseFloat('') || 0`
    resolves it to `0`, which `resolvedPrice` mirrors.
  * A raw text input is modelled by its `parseFloat` outcome class
    (`RawInput`): the empty string, a successful parse to a number, or a
    non-numeric string parsing to NaN.  `parseFloat(x) || 0` is
    `RawInput.parsedOr0`.
  * The external RPC call `menal_process_sale` is the persistence
    boundary: `handleCompleteSale` is modelled as a function returning
    `none` when a guard rejects (no call made, no state change) and
    `some (payload, resetState)` when the call is made and succeeds.
-/

namespace Menal

/-- The three tender types of the `PaymentMethod` union in the source. -/
inductive PayMethod where
  | cash
  | bank
  | telebirr
deriving DecidableEq, Repr

/-- Outcome class of `parseFloat` on a raw text input: the empty string,
a successful parse to the number `q`, or a non-numeric string (NaN). -/
inductive RawInput where
  | empty
  | parsed (q : ℚ)
  | notNumeric
deriving DecidableEq, Repr

/-- The source idiom `parseFloat(x) || 0`: a NaN result (empty or
non-numeric input) coerces to `0`. -/
def RawInput.parsedOr0 : RawInput → ℚ
  | .parsed q => q
  | _ => 0

/-- The `CartItem` interface of the source: `price` is `Option ℚ`, with
`none` standing for the empty-string editing sentinel. -/
structure CartItem where
  productId : String
  productName : String
  quantity : ℤ
  price : Option ℚ
  originalPrice : ℚ
  stock : ℤ
deriving DecidableEq, Repr

/-- The `Product` interface of the source (category omitted: unused by the
cart logic). -/
structure Product where
  id : String
  name : String
  price : ℚ
  stock : ℤ
deriving DecidableEq, Repr

/-- Resolution of a line's stored price:
`typeof price === 'string' ? parseFloat(price) || 0 : price`, where the
only reachable stored string is `''` and `parseFloat('') || 0` is `0`. -/
def resolvedPrice : Option ℚ → ℚ
  | some q => q
  | none => 0

/-- The `addToCart` function: if a line for the product exists, increment
its quantity by 1 unless it has reached `product.stock` (rejected, cart
unchanged); otherwise append a new line of quantity 1 at the catalog price,
recording the product's stock on the line. -/
def addToCart (cart : List CartItem) (product : Product) : List CartItem :=
  match cart.find? (fun item => item.productId == product.id) with
  | some existingItem =>
      if existingItem.quantity ≥ product.stock then
        cart
      else
        cart.map fun item =>
          if item.productId == product.id then
            { item with quantity := item.quantity + 1 }
          else item
  | none =>
      cart ++ [{ productId := product.id, productName := product.name,
                 quantity := 1, price := some product.price,
                 originalPrice := product.price, stock := product.stock }]

/-- The `updateQuantity` function: add `change` to the matching line's
quantity; a result `≤ 0` or above the line's recorded stock leaves the
line unchanged. -/
def updateQuantity (cart : List CartItem) (productId : String) (change : ℤ) :
    List CartItem :=
  cart.map fun item =>
    if item.productId == productId then
      let newQuantity := item.quantity + change
      if newQuantity ≤ 0 then item
      else if newQuantity > item.stock then item
      else { item with quantity := newQuantity }
    else item

/-- The `updatePrice` function: an empty input stores the unset sentinel;
a non-numeric input (NaN) or a negative parse is rejected with the cart
unchanged; otherwise the parsed price is stored. -/
def updatePrice (cart : List CartItem) (productId : String)
    (newPrice : RawInput) : List CartItem :=
  match newPrice with
  | .empty =>
      cart.map fun item =>
        if item.productId == productId then { item with price := none }
        else item
  | .notNumeric => cart
  | .parsed q =>
      if q < 0 then cart
      else
        cart.map fun item =>
          if item.productId == productId then { item with price := some q }
          else item

/-- The `handlePriceBlur` function: an unset price resolves to `0` when the
field loses focus. -/
def handlePriceBlur (cart : List CartItem) (productId : String) :
    List CartItem :=
  cart.map fun item =>
    if item.productId == productId ∧ item.price = none then
      { item with price := some 0 }
    else item

/-- The `removeFromCart` function. -/
def removeFromCart (cart : List CartItem) (productId : String) :
    List CartItem :=
  cart.filter fun item => item.productId != productId

/-- The `subtotal` derivation: the source's left fold
`cart.reduce((sum, item) => sum + price * quantity, 0)` with prices
resolved through `resolvedPrice`. -/
def subtotal (cart : List CartItem) : ℚ :=
  cart.foldl (fun sum item => sum + resolvedPrice item.price * item.quantity) 0

/-- The `paymentSplits` state: one non-negative amount per tender type. -/
structure PaymentSplits where
  cash : ℚ
  bank : ℚ
  telebirr : ℚ
deriving DecidableEq, Repr

/-- Read one tender type's amount, mirroring `paymentSplits[method]`. -/
def PaymentSplits.get (s : PaymentSplits) : PayMethod → ℚ
  | .cash => s.cash
  | .bank => s.bank
  | .telebirr => s.telebirr

/-- Write one tender type's amount, mirroring
`{ ...paymentSplits, [method]: amount }`. -/
def PaymentSplits.set (s : PaymentSplits) : PayMethod → ℚ → PaymentSplits
  | .cash, a => { s with cash := a }
  | .bank, a => { s with bank := a }
  | .telebirr, a => { s with telebirr := a }

/-- The `totalPaid` derivation: `cash + bank + telebirr`. -/
def totalPaid (s : PaymentSplits) : ℚ :=
  s.cash + s.bank + s.telebirr

/-- The `isPaymentComplete` derivation: in split mode the absolute
remainder must be below `0.01`; in single-method mode always true. -/
def isPaymentComplete (isSplitMode : Bool) (total paid : ℚ) : Bool :=
  if isSplitMode then decide (|total - paid| < 1/100) else true

/-- The `isOverpaid` derivation: `remaining < -0.01`, computed from the
stored split amounts regardless of mode. -/
def isOverpaid (total paid : ℚ) : Bool :=
  decide (total - paid < -(1/100))

/-- The `updatePaymentSplit` function: `parseFloat(value) || 0`, rejecting
a negative amount (prior value retained) and storing the amount otherwise —
so a NaN parse stores `0`. -/
def updatePaymentSplit (splits : PaymentSplits) (method : PayMethod)
    (value : RawInput) : PaymentSplits :=
  let amount := value.parsedOr0
  if amount < 0 then splits else splits.set method amount

/-- The `payAll` function: with `otherMethodsTotal` the paid total minus
the method's own current amount, set the method's amount to
`Math.max(0, total - otherMethodsTotal)`. -/
def payAll (total : ℚ) (splits : PaymentSplits) (method : PayMethod) :
    PaymentSplits :=
  splits.set method (max 0 (total - (totalPaid splits - splits.get method)))

/-- The `clearPayments` function: zero all split amounts. -/
def clearPayments : PaymentSplits :=
  { cash := 0, bank := 0, telebirr := 0 }

/-- The component state relevant to checkout: the cart, the discount text
field (kept as its raw-input class, as the source keeps the string), the
selected single payment method, the split amounts, and whether split mode
is active (`showSplitPayment`). -/
structure SaleState where
  cart : List CartItem
  discount : RawInput
  paymentMethod : PayMethod
  paymentSplits : PaymentSplits
  showSplitPayment : Bool
deriving DecidableEq, Repr

/-- The `discountAmount` derivation: `parseFloat(discount) || 0`. -/
def discountAmount (s : SaleState) : ℚ :=
  s.discount.parsedOr0

/-- The `total` derivation: `Math.max(0, subtotal - discountAmount)` —
the total due. -/
def totalOf (s : SaleState) : ℚ :=
  max 0 (subtotal s.cart - discountAmount s)

/-- The submission guard of `handleCompleteSale`: the cart must be
non-empty and `isPaymentComplete` must hold; no other condition is
checked before the RPC is invoked. -/
def canSubmit (s : SaleState) : Bool :=
  !s.cart.isEmpty &&
    isPaymentComplete s.showSplitPayment (totalOf s) (totalPaid s.paymentSplits)

/-- The primary-method selection of `handleCompleteSale`: in split mode,
`bank` when bank strictly exceeds both cash and telebirr, else `telebirr`
when it strictly exceeds both cash and bank, else `cash`; in single mode
the selected method. -/
def primaryMethod (paymentMethod : PayMethod) (splits : PaymentSplits)
    (isSplit : Bool) : PayMethod :=
  if isSplit then
    if splits.bank > splits.cash ∧ splits.bank > splits.telebirr then .bank
    else if splits.telebirr > splits.cash ∧ splits.telebirr > splits.bank then
      .telebirr
    else .cash
  else paymentMethod

/-- The `paymentDetails` object passed to the RPC. -/
structure PaymentDetails where
  cash : ℚ
  bank : ℚ
  telebirr : ℚ
  total_paid : ℚ
  is_split : Bool
deriving DecidableEq, Repr

/-- One element of `p_items`: note the source sets `originalPrice` to the
resolved sale price, not the line's recorded original price. -/
structure RpcItem where
  productId : String
  productName : String
  quantity : ℤ
  price : ℚ
  originalPrice : ℚ
  total : ℚ
deriving DecidableEq, Repr

/-- The full argument record of the `menal_process_sale` RPC call (branch
and customer ids omitted: external identifiers, no checkout logic). -/
structure CheckoutPayload where
  total : ℚ
  discount : ℚ
  finalTotal : ℚ
  paymentMethod : PayMethod
  paymentDetails : PaymentDetails
  items : List RpcItem
deriving DecidableEq, Repr

/-- The `rpcItems` mapping of `handleCompleteSale`. -/
def rpcItemOf (item : CartItem) : RpcItem :=
  let price := resolvedPrice item.price
  { productId := item.productId, productName := item.productName,
    quantity := item.quantity, price := price, originalPrice := price,
    total := price * item.quantity }

/-- The `paymentDetails` assembly of `handleCompleteSale`: split mode
records the stored amounts verbatim; single mode assigns the full final
total to the selected method. -/
def paymentDetailsOf (s : SaleState) (finalTotal : ℚ) : PaymentDetails :=
  if s.showSplitPayment then
    { cash := s.paymentSplits.cash, bank := s.paymentSplits.bank,
      telebirr := s.paymentSplits.telebirr,
      total_paid := totalPaid s.paymentSplits, is_split := true }
  else
    { cash := if s.paymentMethod = .cash then finalTotal else 0,
      bank := if s.paymentMethod = .bank then finalTotal else 0,
      telebirr := if s.paymentMethod = .telebirr then finalTotal else 0,
      total_paid := finalTotal, is_split := false }

/-- The payload assembled by `handleCompleteSale` once its guards pass:
`p_total` is the recomputed subtotal, `p_discount` the raw parsed discount
(not clamped), `p_final_total` the floored difference. -/
def buildPayload (s : SaleState) : CheckoutPayload :=
  let sub := subtotal s.cart
  let dAmt := discountAmount s
  let finalTotal := max 0 (sub - dAmt)
  { total := sub, discount := dAmt, finalTotal := finalTotal,
    paymentMethod := primaryMethod s.paymentMethod s.paymentSplits
      s.showSplitPayment,
    paymentDetails := paymentDetailsOf s finalTotal,
    items := s.cart.map rpcItemOf }

/-- The state after the success branch of `handleCompleteSale`: cart
cleared, discount text reset to the string "0", split amounts zeroed,
split mode off.  The selected single `paymentMethod` is not written by the
success branch and so retains its prior value. -/
def resetAfterSale (s : SaleState) : SaleState :=
  { cart := [], discount := .parsed 0, paymentMethod := s.paymentMethod,
    paymentSplits := clearPayments, showSplitPayment := false }

/-- The `handleCompleteSale` function up to the persistence boundary: an
empty cart or incomplete payment rejects with no RPC call and no state
change (`none`); otherwise the RPC is invoked with `buildPayload` and, on
success, the state is reset (`some (payload, reset)`). -/
def handleCompleteSale (s : SaleState) :
    Option (CheckoutPayload × SaleState) :=
  if s.cart.isEmpty then none
  else if !isPaymentComplete s.showSplitPayment (totalOf s)
      (totalPaid s.paymentSplits) then none
  else some (buildPayload s, resetAfterSale s)

/-! ## Operation sequences on a single product (for the quantity-ceiling
invariant) -/

/-- One cart operation on a fixed product: an `addToCart` of that product
or an `updateQuantity` on its id. -/
inductive CartOp where
  | add
  | changeQty (delta : ℤ)
deriving DecidableEq, Repr

/-- Apply one operation on the fixed product `p` to the cart. -/
def applyOp (p : Product) (cart : List CartItem) : CartOp → List CartItem
  | .add => addToCart cart p
  | .changeQty d => updateQuantity cart p.id d

/-- Apply a sequence of operations on the fixed product `p`, left to
right. -/
def applyOps (p : Product) (ops : List CartOp) (cart : List CartItem) :
    List CartItem :=
  ops.foldl (applyOp p) cart

/-- The cart line `addToCart` creates for `p`, at quantity `q`. -/
def lineFor (p : Product) (q : ℤ) : CartItem :=
  { productId := p.id, productName := p.name, quantity := q,
    price := some p.price, originalPrice := p.price, stock := p.stock }

/-- Invariant of a cart driven only by operations on the single product
`p`: it is empty, or exactly one line for `p` with quantity between `1`
and `p.stock`. -/
def SingleCartInv (p : Product) (cart : List CartItem) : Prop :=
  cart = [] ∨ ∃ q : ℤ, 1 ≤ q ∧ q ≤ p.stock ∧ cart = [lineFor p q]

/-! ## Concrete states used to instantiate the theorems -/

/-- A cart line at price 100, quantity 1, recorded stock 5. -/
def itemA100 : CartItem :=
  { productId := "A", productName := "Product A", quantity := 1,
    price := some 100, originalPrice := 100, stock := 5 }

/-- A cart line whose price is the unset (empty-string) sentinel. -/
def itemUnset : CartItem :=
  { productId := "U", productName := "Unset item", quantity := 1,
    price := none, originalPrice := 100, stock := 5 }

/-- Single-mode cash state, one 100-unit line, discount entered as 400. -/
def demoOverDiscount : SaleState :=
  { cart := [itemA100], discount := .parsed 400, paymentMethod := .cash,
    paymentSplits := clearPayments, showSplitPayment := false }

/-- Single-mode cash state, one 100-unit line, discount entered as 30. -/
def demoDiscount30 : SaleState :=
  { cart := [itemA100], discount := .parsed 30, paymentMethod := .cash,
    paymentSplits := clearPayments, showSplitPayment := false }

/-- Single-mode cash state whose only line has an unset price. -/
def demoUnsetPrice : SaleState :=
  { cart := [itemUnset], discount := .parsed 0, paymentMethod := .cash,
    paymentSplits := clearPayments, showSplitPayment := false }

/-- Single-mode cash state with an empty cart. -/
def demoEmptyCart : SaleState :=
  { cart := [], discount := .parsed 0, paymentMethod := .cash,
    paymentSplits := clearPayments, showSplitPayment := false }

/-- Split-mode state, one 100-unit line, nothing tendered yet. -/
def demoSplitShort : SaleState :=
  { cart := [itemA100], discount := .parsed 0, paymentMethod := .cash,
    paymentSplits := clearPayments, showSplitPayment := true }

/-- Single-mode state with the bank method selected and a valid cart. -/
def demoBankSale : SaleState :=
  { cart := [itemA100], discount := .parsed 0, paymentMethod := .bank,
    paymentSplits := clearPayments, showSplitPayment := false }

/-- Single-mode state whose dormant split amounts sum to 200 against a
total due of 100. -/
def demoDormantOverpay : SaleState :=
  { cart := [itemA100], discount := .parsed 0, paymentMethod := .cash,
    paymentSplits := { cash := 200, bank := 0, telebirr := 0 },
    showSplitPayment := false }

/-- A product with stock 2. -/
def demoProduct : Product :=
  { id := "A", name := "Product A", price := 100, stock := 2 }

/-- Scenario 5 of the spec: add once, then three quantity increments. -/
def demoOps : List CartOp :=
  [.add, .changeQty 1, .changeQty 1, .changeQty 1]

/-! ## Theorems -/

/-- The left fold computing `subtotal`, with a generalized accumulator,
equals the accumulator plus the sum of the per-line totals. -/
theorem subtotal_foldl_eq (cart : List CartItem) (a : ℚ) :
    cart.foldl (fun sum item => sum + resolvedPrice item.price * item.quantity) a
      = a + (cart.map fun item => resolvedPrice item.price * item.quantity).sum := by
  induction cart generalizing a with
  | nil => simp
  | cons x xs ih =>
      simp only [List.foldl_cons, List.map_cons, List.sum_cons, ih]
      ring

/-- Claim C8: for every cart state, `subtotal` equals the sum over all
lines of quantity times the line's resolved price, an unset (empty-string)
price contributing `0`. -/
theorem C8_subtotal_correct (cart : List CartItem) :
    subtotal cart
      = (cart.map fun item => resolvedPrice item.price * item.quantity).sum := by
  simpa [subtotal] using subtotal_foldl_eq cart 0

/-- Claim C3: whenever split mode is active and the paid total misses the
total due by at least `0.01`, the submission guard rejects; in single
mode `isPaymentComplete` is identically true. -/
theorem C3_tender_gate (s : SaleState) :
    (s.showSplitPayment = true →
        |totalOf s - totalPaid s.paymentSplits| ≥ 1/100 →
        canSubmit s = false)
    ∧ isPaymentComplete false (totalOf s) (totalPaid s.paymentSplits) = true := by
  constructor
  · intro hs hge
    have hfalse : isPaymentComplete s.showSplitPayment (totalOf s)
        (totalPaid s.paymentSplits) = false := by
      rw [hs]
      simp only [isPaymentComplete, if_true, decide_eq_false_iff_not, not_lt]
      exact hge
    simp [canSubmit, hfalse]
  · rfl

/-- Witness for C3 at a concrete split-mode state owing 100 with nothing
tendered. -/
theorem C3_witness :
    demoSplitShort.showSplitPayment = true
    ∧ |totalOf demoSplitShort - totalPaid demoSplitShort.paymentSplits| ≥ 1/100
    ∧ canSubmit demoSplitShort = false := by
  have ht : totalOf demoSplitShort = 100 := by
    norm_num [totalOf, demoSplitShort, subtotal, itemA100, discountAmount,
      RawInput.parsedOr0, resolvedPrice, clearPayments]
  have hp : totalPaid demoSplitShort.paymentSplits = 0 := by
    norm_num [totalPaid, demoSplitShort, clearPayments]
  have h2 : |totalOf demoSplitShort - totalPaid demoSplitShort.paymentSplits|
      ≥ 1/100 := by
    rw [ht, hp]; norm_num
  exact ⟨rfl, h2, (C3_tender_gate demoSplitShort).1 rfl h2⟩

/-- Claim C9, corrected: `updatePrice` rejects a negative or non-numeric
input with the cart unchanged, and `updatePaymentSplit` rejects a negative
input with the splits unchanged — but a non-numeric split input is coerced
to `0` and stored, overwriting the prior amount. -/
theorem C9_amended (cart : List CartItem) (pid : String)
    (ps : PaymentSplits) (m : PayMethod) :
    (∀ q : ℚ, q < 0 → updatePrice cart pid (.parsed q) = cart)
    ∧ updatePrice cart pid .notNumeric = cart
    ∧ (∀ q : ℚ, q < 0 → updatePaymentSplit ps m (.parsed q) = ps)
    ∧ updatePaymentSplit ps m .notNumeric = ps.set m 0 := by
  refine ⟨fun q hq => ?_, rfl, fun q hq => ?_, ?_⟩
  · simp [updatePrice, hq]
  · simp [updatePaymentSplit, RawInput.parsedOr0, hq]
  · simp [updatePaymentSplit, RawInput.parsedOr0]

/-- Counterexample to C9 as stated: a non-numeric input to
`updatePaymentSplit` does not retain the prior amount of 50 — it stores
0. -/
theorem C9_counterexample :
    updatePaymentSplit { cash := 50, bank := 0, telebirr := 0 } .cash
        .notNumeric
      = { cash := 0, bank := 0, telebirr := 0 }
    ∧ ({ cash := 0, bank := 0, telebirr := 0 } : PaymentSplits)
      ≠ { cash := 50, bank := 0, telebirr := 0 } := by
  constructor <;> decide

/-- Witness for C9 at concrete negative inputs. -/
theorem C9_witness :
    ((-1 : ℚ) < 0 ∧ updatePrice [itemA100] "A" (.parsed (-1)) = [itemA100])
    ∧ ((-2 : ℚ) < 0
        ∧ updatePaymentSplit { cash := 5, bank := 0, telebirr := 0 } .cash
            (.parsed (-2))
          = { cash := 5, bank := 0, telebirr := 0 }) :=
  ⟨⟨by norm_num,
      (C9_amended [itemA100] "A" { cash := 5, bank := 0, telebirr := 0 }
          .cash).1 (-1) (by norm_num)⟩,
    ⟨by norm_num,
      (C9_amended [itemA100] "A" { cash := 5, bank := 0, telebirr := 0 }
          .cash).2.2.1 (-2) (by norm_num)⟩⟩

/-- Claim C10: `isOverpaid` is computed from the stored split amounts
regardless of mode, so in single mode a state whose dormant splits sum to
more than the total due plus `0.01` is simultaneously flagged overpaid,
payment-complete, and submittable. -/
theorem C10_overpaid_single (s : SaleState)
    (h1 : s.showSplitPayment = false) (h2 : s.cart ≠ [])
    (h3 : totalOf s + 1/100 < totalPaid s.paymentSplits) :
    isOverpaid (totalOf s) (totalPaid s.paymentSplits) = true
    ∧ isPaymentComplete s.showSplitPayment (totalOf s)
        (totalPaid s.paymentSplits) = true
    ∧ canSubmit s = true := by
  refine ⟨?_, ?_, ?_⟩
  · simp only [isOverpaid, decide_eq_true_eq]
    linarith
  · rw [h1]; rfl
  · cases hc : s.cart with
    | nil => exact absurd hc h2
    | cons x xs => simp [canSubmit, hc, isPaymentComplete, h1]

/-- Witness for C10 at a single-mode state owing 100 with dormant splits
summing to 200. -/
theorem C10_witness :
    demoDormantOverpay.showSplitPayment = false
    ∧ demoDormantOverpay.cart ≠ []
    ∧ totalOf demoDormantOverpay + 1/100
        < totalPaid demoDormantOverpay.paymentSplits
    ∧ isOverpaid (totalOf demoDormantOverpay)
        (totalPaid demoDormantOverpay.paymentSplits) = true
    ∧ canSubmit demoDormantOverpay = true := by
  have ht : totalOf demoDormantOverpay = 100 := by
    norm_num [totalOf, demoDormantOverpay, subtotal, itemA100, discountAmount,
      RawInput.parsedOr0, resolvedPrice]
  have hp : totalPaid demoDormantOverpay.paymentSplits = 200 := by
    norm_num [totalPaid, demoDormantOverpay]
  have h3 : totalOf demoDormantOverpay + 1/100
      < totalPaid demoDormantOverpay.paymentSplits := by
    rw [ht, hp]; norm_num
  have h := C10_overpaid_single demoDormantOverpay rfl (by decide) h3
  exact ⟨rfl, by decide, h3, h.1, h.2.2⟩

/-- Setting one method's amount changes neither the other methods' sum:
paid total minus the set method's amount is unchanged. -/
theorem set_preserves_others (ps : PaymentSplits) (m : PayMethod) (a : ℚ) :
    totalPaid (ps.set m a) - (ps.set m a).get m = totalPaid ps - ps.get m := by
  cases m <;> simp [totalPaid, PaymentSplits.set, PaymentSplits.get] <;> ring

/-- Setting the same method twice keeps only the second write. -/
theorem set_set (ps : PaymentSplits) (m : PayMethod) (a b : ℚ) :
    (ps.set m a).set m b = ps.set m b := by
  cases ps
  cases m <;> rfl

/-- The paid total after `payAll`: the floored remainder plus the other
methods' sum. -/
theorem totalPaid_payAll (total : ℚ) (ps : PaymentSplits) (m : PayMethod) :
    totalPaid (payAll total ps m)
      = max 0 (total - (totalPaid ps - ps.get m))
          + (totalPaid ps - ps.get m) := by
  cases m <;> simp [payAll, totalPaid, PaymentSplits.get, PaymentSplits.set]
    <;> ring

/-- Remainder bound behind `payAll`: when the other methods' sum `o` is
below `total + 0.01`, paying `max 0 (total - o)` lands within `0.01` of
the total. -/
theorem abs_remainder_lt (total o : ℚ) (h : o < total + 1/100) :
    |total - (max 0 (total - o) + o)| < 1/100 := by
  rcases le_total (total - o) 0 with hc | hc
  · rw [max_eq_left hc]
    rw [abs_lt]
    constructor <;> linarith
  · rw [max_eq_right hc]
    have he : total - (total - o + o) = 0 := by ring
    rw [he]
    norm_num

/-- Claim C4, corrected: after `payAll`, payment is complete provided the
other methods' sum is below the total due plus `0.01` (the floor at `0`
cannot cancel an existing overshoot); and `payAll` is idempotent
unconditionally. -/
theorem C4_amended (total : ℚ) (ps : PaymentSplits) (m : PayMethod) :
    (totalPaid ps - ps.get m < total + 1/100 →
        isPaymentComplete true total (totalPaid (payAll total ps m)) = true)
    ∧ payAll total (payAll total ps m) m = payAll total ps m := by
  constructor
  · intro h
    rw [totalPaid_payAll]
    simp only [isPaymentComplete, if_true, decide_eq_true_eq]
    exact abs_remainder_lt total _ h
  · show (payAll total ps m).set m _ = _
    rw [payAll, set_preserves_others, set_set]

/-- Counterexample to C4 as stated: with a total due of 10 and 50 already
entered on bank, `payAll` on cash floors cash at 0 and payment remains
incomplete. -/
theorem C4_counterexample :
    payAll 10 { cash := 0, bank := 50, telebirr := 0 } .cash
      = { cash := 0, bank := 50, telebirr := 0 }
    ∧ isPaymentComplete true 10
        (totalPaid (payAll 10 { cash := 0, bank := 50, telebirr := 0 } .cash))
      = false := by
  have h1 : payAll 10 { cash := 0, bank := 50, telebirr := 0 } .cash
      = { cash := 0, bank := 50, telebirr := 0 } := by
    norm_num [payAll, totalPaid, PaymentSplits.get, PaymentSplits.set]
  refine ⟨h1, ?_⟩
  rw [h1]
  have h2 : totalPaid { cash := 0, bank := 50, telebirr := 0 } = 50 := by
    norm_num [totalPaid]
  rw [h2]
  simp only [isPaymentComplete, if_true, decide_eq_false_iff_not, not_lt]
  rw [show (10:ℚ) - 50 = -40 by norm_num]
  rw [abs_of_nonpos (by norm_num)]
  norm_num

/-- Witness for C4 at total 10 with cash 2 and bank 3 entered. -/
theorem C4_witness :
    totalPaid { cash := 2, bank := 3, telebirr := 0 }
        - PaymentSplits.get { cash := 2, bank := 3, telebirr := 0 } .cash
      < 10 + 1/100
    ∧ isPaymentComplete true 10
        (totalPaid (payAll 10 { cash := 2, bank := 3, telebirr := 0 } .cash))
      = true := by
  have h : totalPaid { cash := 2, bank := 3, telebirr := 0 }
      - PaymentSplits.get { cash := 2, bank := 3, telebirr := 0 } .cash
      < 10 + 1/100 := by
    norm_num [totalPaid, PaymentSplits.get]
  exact ⟨h, (C4_amended 10 { cash := 2, bank := 3, telebirr := 0 } .cash).1 h⟩

/-- Claim C5: at the failing input cash 1, bank 5, telebirr 5 — where bank
and telebirr tie for the largest amount — the code records cash as the
primary method even though cash does not have the largest amount,
contradicting the source's own comment that the primary method is the one
with the highest amount. -/
theorem C5_failing_input :
    primaryMethod .cash { cash := 1, bank := 5, telebirr := 5 } true
      = PayMethod.cash
    ∧ PaymentSplits.get { cash := 1, bank := 5, telebirr := 5 } .cash
      < PaymentSplits.get { cash := 1, bank := 5, telebirr := 5 } .bank := by
  constructor
  · norm_num [primaryMethod]
  · norm_num [PaymentSplits.get]

/-- A successful `handleCompleteSale` returns exactly the assembled
payload and the reset state. -/
theorem handleCompleteSale_some (s : SaleState) (pl : CheckoutPayload)
    (s' : SaleState) (h : handleCompleteSale s = some (pl, s')) :
    pl = buildPayload s ∧ s' = resetAfterSale s := by
  unfold handleCompleteSale at h
  split at h
  · cases h
  · split at h
    · cases h
    · simp only [Option.some.injEq, Prod.mk.injEq] at h
      exact ⟨h.1.symm, h.2.symm⟩

/-- Flooring the final total at zero realizes the clamped discount: for
non-negative discount and subtotal, `max 0 (t - d) = t - min d t ≤ t`. -/
theorem floor_discount (t d : ℚ) (hd : 0 ≤ d) (ht : 0 ≤ t) :
    max 0 (t - d) = t - min d t ∧ max 0 (t - d) ≤ t := by
  rcases le_total d t with hc | hc
  · rw [min_eq_left hc, max_eq_right (by linarith)]
    exact ⟨rfl, by linarith⟩
  · rw [min_eq_right hc, max_eq_left (by linarith)]
    exact ⟨(sub_self t).symm, ht⟩

/-- Claim C1, corrected: the payload's discount is the raw parsed amount,
not clamped to the subtotal; the clamping happens only in the final total,
which is `max 0 (subtotal - discount)` — hence non-negative always, and,
for non-negative discount and subtotal, equal to the subtotal minus the
clamped discount `min discount subtotal` and at most the subtotal. -/
theorem C1_amended (s : SaleState) (pl : CheckoutPayload) (s' : SaleState)
    (h : handleCompleteSale s = some (pl, s')) :
    pl.discount = discountAmount s
    ∧ pl.total = subtotal s.cart
    ∧ pl.finalTotal = max 0 (pl.total - pl.discount)
    ∧ 0 ≤ pl.finalTotal
    ∧ (0 ≤ pl.discount → 0 ≤ pl.total →
        pl.finalTotal = pl.total - min pl.discount pl.total
        ∧ pl.finalTotal ≤ pl.total) := by
  obtain ⟨hpl, -⟩ := handleCompleteSale_some s pl s' h
  subst hpl
  refine ⟨rfl, rfl, rfl, le_max_left 0 _, ?_⟩
  intro hd ht
  exact floor_discount (buildPayload s).total (buildPayload s).discount hd ht

/-- Counterexample to C1 as stated: discount entered as 400 against a
subtotal of 100 submits a payload whose discount field is 400, above the
subtotal. -/
theorem C1_counterexample :
    handleCompleteSale demoOverDiscount
      = some (buildPayload demoOverDiscount, resetAfterSale demoOverDiscount)
    ∧ (buildPayload demoOverDiscount).total = 100
    ∧ (buildPayload demoOverDiscount).discount = 400
    ∧ ¬((buildPayload demoOverDiscount).discount
        ≤ (buildPayload demoOverDiscount).total) := by
  have htot : (buildPayload demoOverDiscount).total = 100 := by
    norm_num [buildPayload, demoOverDiscount, subtotal, itemA100,
      resolvedPrice]
  have hdisc : (buildPayload demoOverDiscount).discount = 400 := by
    norm_num [buildPayload, demoOverDiscount, discountAmount,
      RawInput.parsedOr0]
  refine ⟨rfl, htot, hdisc, ?_⟩
  rw [htot, hdisc]
  norm_num

/-- Witness for C1 at a state with subtotal 100 and discount 30. -/
theorem C1_witness :
    (buildPayload demoDiscount30).finalTotal
      = (buildPayload demoDiscount30).total
          - min (buildPayload demoDiscount30).discount
              (buildPayload demoDiscount30).total
    ∧ (buildPayload demoDiscount30).finalTotal
      ≤ (buildPayload demoDiscount30).total := by
  have hd : (0:ℚ) ≤ (buildPayload demoDiscount30).discount := by
    norm_num [buildPayload, demoDiscount30, discountAmount,
      RawInput.parsedOr0]
  have ht : (0:ℚ) ≤ (buildPayload demoDiscount30).total := by
    norm_num [buildPayload, demoDiscount30, subtotal, itemA100,
      resolvedPrice]
  exact (C1_amended demoDiscount30 (buildPayload demoDiscount30)
    (resetAfterSale demoDiscount30) rfl).2.2.2.2 hd ht

/-- Claim C2, corrected: the submission guard checks only cart
non-emptiness and tender completeness — a line whose price is in the unset
state does not block submission; its price is coerced to 0 in the
payload's items. -/
theorem C2_amended (s : SaleState) :
    (handleCompleteSale s = none ↔
        s.cart = []
        ∨ isPaymentComplete s.showSplitPayment (totalOf s)
            (totalPaid s.paymentSplits) = false)
    ∧ (∀ item : CartItem, item.price = none → (rpcItemOf item).price = 0) := by
  constructor
  · unfold handleCompleteSale
    split_ifs with h1 h2
    · simp only [true_iff]
      exact Or.inl (List.isEmpty_iff.mp h1)
    · simp only [true_iff]
      exact Or.inr (by simpa using h2)
    · constructor
      · intro hcontra
        exact absurd hcontra (by simp)
      · rintro (hnil | hfalse)
        · exact absurd (by rw [hnil]; rfl : s.cart.isEmpty = true) h1
        · exact absurd (by simp [hfalse]) h2
  · intro item hp
    simp [rpcItemOf, hp, resolvedPrice]

/-- Counterexample to C2 as stated: a cart whose only line has an unset
price still submits (the persistence call is made). -/
theorem C2_counterexample :
    itemUnset ∈ demoUnsetPrice.cart
    ∧ itemUnset.price = none
    ∧ (handleCompleteSale demoUnsetPrice).isSome = true := by
  refine ⟨?_, rfl, rfl⟩
  simp [demoUnsetPrice]

/-- Witness for C2 at the empty-cart state: the guard rejects. -/
theorem C2_witness : handleCompleteSale demoEmptyCart = none :=
  (C2_amended demoEmptyCart).1.mpr (Or.inl rfl)

/-- Claim C6, corrected: the success branch clears the cart, resets the
discount to 0, zeroes the split amounts and leaves split mode — but it
does not reset the selected single payment method, which retains its
pre-submission value instead of returning to Cash. -/
theorem C6_amended (s : SaleState) (pl : CheckoutPayload) (s' : SaleState)
    (h : handleCompleteSale s = some (pl, s')) :
    s'.cart = [] ∧ discountAmount s' = 0 ∧ s'.paymentSplits = clearPayments
    ∧ s'.showSplitPayment = false ∧ s'.paymentMethod = s.paymentMethod := by
  obtain ⟨-, hs'⟩ := handleCompleteSale_some s pl s' h
  subst hs'
  exact ⟨rfl, rfl, rfl, rfl, rfl⟩

/-- Counterexample to C6 as stated: submitting with bank selected leaves
the payment method at bank after the reset, not the Cash default. -/
theorem C6_counterexample :
    handleCompleteSale demoBankSale
      = some (buildPayload demoBankSale, resetAfterSale demoBankSale)
    ∧ (resetAfterSale demoBankSale).paymentMethod = PayMethod.bank
    ∧ PayMethod.bank ≠ PayMethod.cash :=
  ⟨rfl, rfl, by decide⟩

/-- Witness for C6 at the bank-selected state. -/
theorem C6_witness :
    (resetAfterSale demoBankSale).cart = []
    ∧ discountAmount (resetAfterSale demoBankSale) = 0
    ∧ (resetAfterSale demoBankSale).paymentSplits = clearPayments
    ∧ (resetAfterSale demoBankSale).showSplitPayment = false
    ∧ (resetAfterSale demoBankSale).paymentMethod
      = demoBankSale.paymentMethod :=
  C6_amended demoBankSale (buildPayload demoBankSale)
    (resetAfterSale demoBankSale) rfl

/-- A map whose function fixes every element of the list is the
identity. -/
theorem map_id_of_eq {α : Type} (l : List α) (f : α → α)
    (h : ∀ a ∈ l, f a = a) : l.map f = l := by
  induction l with
  | nil => rfl
  | cons x xs ih =>
      simp only [List.map_cons]
      rw [h x (List.mem_cons_self x xs),
        ih fun a ha => h a (List.mem_cons_of_mem x ha)]

/-- `addToCart` with the fixed product preserves the single-product cart
invariant. -/
theorem addToCart_inv (p : Product) (hstock : 1 ≤ p.stock)
    (cart : List CartItem) (hc : SingleCartInv p cart) :
    SingleCartInv p (addToCart cart p) := by
  rcases hc with rfl | ⟨q, hq1, hq2, rfl⟩
  · exact Or.inr ⟨1, le_refl 1, hstock, rfl⟩
  · have hfind : List.find? (fun item => item.productId == p.id) [lineFor p q]
        = some (lineFor p q) :=
      List.find?_cons_of_pos _ (by simp [lineFor])
    unfold addToCart
    rw [hfind]
    show SingleCartInv p
      (if (lineFor p q).quantity ≥ p.stock then [lineFor p q]
       else List.map
         (fun item =>
           if item.productId == p.id then
             { item with quantity := item.quantity + 1 }
           else item)
         [lineFor p q])
    by_cases hge : (lineFor p q).quantity ≥ p.stock
    · rw [if_pos hge]
      exact Or.inr ⟨q, hq1, hq2, rfl⟩
    · rw [if_neg hge]
      have hlt : q < p.stock := lt_of_not_ge hge
      refine Or.inr ⟨q + 1, by omega, by omega, ?_⟩
      simp [lineFor, beq_iff_eq]

/-- `updateQuantity` on the fixed product's id preserves the
single-product cart invariant. -/
theorem updateQuantity_inv (p : Product) (d : ℤ) (cart : List CartItem)
    (hc : SingleCartInv p cart) :
    SingleCartInv p (updateQuantity cart p.id d) := by
  rcases hc with rfl | ⟨q, hq1, hq2, rfl⟩
  · exact Or.inl rfl
  · by_cases h0 : q + d ≤ 0
    · refine Or.inr ⟨q, hq1, hq2, ?_⟩
      simp [updateQuantity, lineFor, beq_iff_eq, h0]
    · by_cases hgt : q + d > p.stock
      · refine Or.inr ⟨q, hq1, hq2, ?_⟩
        simp [updateQuantity, lineFor, beq_iff_eq, h0, hgt]
      · refine Or.inr ⟨q + d, by omega, by omega, ?_⟩
        simp [updateQuantity, lineFor, beq_iff_eq, h0, hgt]

/-- Every operation sequence on the fixed product preserves the
single-product cart invariant. -/
theorem applyOps_inv (p : Product) (hstock : 1 ≤ p.stock)
    (ops : List CartOp) (cart : List CartItem) (hc : SingleCartInv p cart) :
    SingleCartInv p (applyOps p ops cart) := by
  induction ops generalizing cart with
  | nil => exact hc
  | cons op ops ih =>
      simp only [applyOps, List.foldl_cons]
      apply ih
      cases op with
      | add => exact addToCart_inv p hstock cart hc
      | changeQty d => exact updateQuantity_inv p d cart hc

/-- Claim C7: along any sequence of `addToCart`/`updateQuantity` calls on
a single in-stock product, the line's quantity stays between 1 and the
stock recorded at first add; a stock-exceeded `addToCart` and a floored or
stock-exceeded `updateQuantity` leave the cart unchanged. -/
theorem C7_quantity_ceiling (p : Product) (hstock : 1 ≤ p.stock) :
    (∀ ops : List CartOp, ∀ item ∈ applyOps p ops [],
        1 ≤ item.quantity ∧ item.quantity ≤ p.stock)
    ∧ (∀ cart : List CartItem, ∀ existing : CartItem,
        cart.find? (fun it => it.productId == p.id) = some existing →
        existing.quantity ≥ p.stock → addToCart cart p = cart)
    ∧ (∀ (cart : List CartItem) (d : ℤ),
        (∀ it ∈ cart, it.productId = p.id →
          it.quantity + d ≤ 0 ∨ it.quantity + d > it.stock) →
        updateQuantity cart p.id d = cart) := by
  refine ⟨?_, ?_, ?_⟩
  · intro ops item hmem
    rcases applyOps_inv p hstock ops [] (Or.inl rfl) with
      hnil | ⟨q, hq1, hq2, heq⟩
    · rw [hnil] at hmem
      cases hmem
    · rw [heq] at hmem
      rcases List.mem_singleton.mp hmem with rfl
      exact ⟨hq1, hq2⟩
  · intro cart existing hfind hge
    unfold addToCart
    rw [hfind]
    exact if_pos hge
  · intro cart d hall
    unfold updateQuantity
    apply map_id_of_eq
    intro it hit
    by_cases hid : it.productId = p.id
    · by_cases h0 : it.quantity + d ≤ 0
      · simp [beq_iff_eq, hid, h0]
      · rcases hall it hit hid with h0' | hgt
        · exact absurd h0' h0
        · simp [beq_iff_eq, hid, h0, hgt]
    · simp [beq_iff_eq, hid]

/-- Witness for C7: the spec's scenario 5 — a product with stock 2, one
add and three increments. -/
theorem C7_witness :
    (1 : ℤ) ≤ demoProduct.stock
    ∧ ∀ item ∈ applyOps demoProduct demoOps [],
        1 ≤ item.quantity ∧ item.quantity ≤ demoProduct.stock :=
  ⟨by decide, (C7_quantity_ceiling demoProduct (by decide)).1 demoOps⟩

end Menal
